import Mathlib

namespace AquaAlert

/-- Source `src/main.py` lines 94-100: one-step tier promotion. An
unrecognized level string falls back to index 0 (the Python `except
ValueError: i = 0`), and the promoted index is clamped at the last tier. -/
def bump_risk (level : String) : String :=
  let order := ["Very Low", "Low", "Moderate", "High", "Very High"]
  let i := (order.indexOf? level).getD 0
  order.getD (min (i + 1) (order.length - 1)) ""

example : bump_risk "Low" = "Moderate" := by decide
example : bump_risk "Very High" = "Very High" := by decide
example : bump_risk "banana" = "Low" := by decide

/-- Python `str.lower`, modelled character-wise via `Char.toLower`. -/
def pyLower (s : String) : String := ⟨s.data.map Char.toLower⟩

/-- Substring test on character lists: `hasSubList n h` is true iff `n`
occurs contiguously inside `h` (the Python `n in h` on strings). -/
def hasSubList (needle : List Char) : List Char → Bool
  | [] => needle.isEmpty
  | c :: t => needle.isPrefixOf (c :: t) || hasSubList needle t

/-- Source `src/main.py` lines 102-104: flood-relevance of an alert event
name, a case-insensitive substring match against four keywords; a missing
event name is treated as the empty string (`event or ""`). -/
def floodish (event : Option String) : Bool :=
  let e := pyLower (event.getD "")
  ["flood", "flash", "coastal", "surge"].any (fun k => hasSubList k.data e.data)

example : floodish (some "Flash Flood Warning") = true := by decide
example : floodish (some "Tornado Warning") = false := by decide
example : floodish none = false := by decide

/-- Source `src/main.py` lines 64-72: base risk tier from elevation (m) and
average monthly rainfall (mm). Python floats are modelled as rationals. -/
def calc_risk (elev_m : ℚ) (avg_mm : ℚ) : String :=
  let e : ℕ := if elev_m ≥ 20 then 0 else if elev_m ≥ 10 then 1
    else if elev_m ≥ 5 then 2 else 3
  let r : ℕ := if avg_mm ≤ 50 then 0 else if avg_mm ≤ 90 then 1
    else if avg_mm ≤ 120 then 2 else 3
  let t := e + r
  if t ≤ 1 then "Very Low"
  else if t ≤ 3 then "Low"
  else if t ≤ 4 then "Moderate"
  else if t ≤ 5 then "High"
  else "Very High"

example : calc_risk 7 82 = "Low" := by decide
example : calc_risk 25 40 = "Very Low" := by decide
example : calc_risk 2 130 = "Very High" := by decide

/-- Source `src/main.py` lines 74-91: fixed advisory tips per risk level. -/
def tips_for (level : String) : List String :=
  if level = "High" ∨ level = "Very High" then
    ["Install a sump pump w/ backup power.",
     "Seal foundation cracks & window wells.",
     "Redirect downspouts 3–6 ft from foundation."]
  else if level = "Moderate" then
    ["Consider a French drain.",
     "Regrade soil to slope away from the house.",
     "Use native plants for absorption."]
  else
    ["Maintain gutters/downspouts.",
     "Keep a basic emergency kit.",
     "Sign up for local weather alerts."]

/-- An NWS alert feature as the fuser sees it: the `event` and `severity`
fields of its properties, either possibly absent. -/
structure AlertRecord where
  eventName : Option String
  severity : Option String
deriving DecidableEq

/-- The observable outcome of the alert-fusion block: the final level, the
`alert_bump_applied` flag and the `debug_alerts_count` value. -/
structure FuseResult where
  finalTier : String
  bumpApplied : Bool
  matchedCount : ℕ
deriving DecidableEq

/-- Source `src/main.py` lines 119-163, the live-alert bump block, as a
function of the pre-fusion level and the alert list: filter the alerts to
flood-relevant ones; if none, leave the level unchanged with no bump; if any
has severity `severe` or `extreme` (case-insensitive, absent read as `""`),
force level `High`; otherwise promote the level one step. -/
def fuse (level : String) (alerts : List AlertRecord) : FuseResult :=
  let flood_feats := alerts.filter (fun f => floodish f.eventName)
  let debug_alerts_count := flood_feats.length
  if flood_feats.isEmpty then
    ⟨level, false, debug_alerts_count⟩
  else
    let severities := flood_feats.map (fun f => pyLower (f.severity.getD ""))
    if severities.any (fun s => s == "severe" || s == "extreme") then
      ⟨"High", true, debug_alerts_count⟩
    else
      ⟨bump_risk level, true, debug_alerts_count⟩

example : fuse "Very Low" [⟨some "Flash Flood Warning", some "Moderate"⟩] =
    ⟨"Low", true, 1⟩ := by decide
example : fuse "Moderate" [⟨some "Coastal Flood Advisory", some "Severe"⟩] =
    ⟨"High", true, 1⟩ := by decide
example : fuse "Low" [] = ⟨"Low", false, 0⟩ := by decide

/-- The five-level ordinal risk tier of the spec's data model. -/
inductive RiskTier where
  | veryLow
  | low
  | moderate
  | high
  | veryHigh
deriving DecidableEq

/-- The level string the source uses for each tier. -/
def tierName : RiskTier → String
  | .veryLow => "Very Low"
  | .low => "Low"
  | .moderate => "Moderate"
  | .high => "High"
  | .veryHigh => "Very High"

/-- Position of a level string in the ordering
[VeryLow, Low, Moderate, High, VeryHigh]; unknown strings sort above all. -/
def tier_rank (s : String) : ℕ :=
  if s = "Very Low" then 0
  else if s = "Low" then 1
  else if s = "Moderate" then 2
  else if s = "High" then 3
  else if s = "Very High" then 4
  else 5

/-- Spec §4.2 step 4: a single-step promotion on the ordered tier sequence,
clamped at VeryHigh. -/
def bumpOnce : RiskTier → RiskTier
  | .veryLow => .low
  | .low => .moderate
  | .moderate => .high
  | .high => .veryHigh
  | .veryHigh => .veryHigh

/-- Spec §4.1's elevation bucket, written with the spec's disjoint ranges
(for comparison with the cascade inside `calc_risk`). -/
def spec_elev_bucket (elev : ℚ) : ℕ :=
  if 20 ≤ elev then 0
  else if 10 ≤ elev ∧ elev < 20 then 1
  else if 5 ≤ elev ∧ elev < 10 then 2
  else 3

/-- Spec §4.1's rain bucket, written with the spec's disjoint ranges. -/
def spec_rain_bucket (rain : ℚ) : ℕ :=
  if rain ≤ 50 then 0
  else if 50 < rain ∧ rain ≤ 90 then 1
  else if 90 < rain ∧ rain ≤ 120 then 2
  else 3

/-- Spec §4.1's tier mapping from the combined score `t = e + r`. -/
def spec_tier (t : ℕ) : String :=
  if t ≤ 1 then "Very Low"
  else if t ≤ 3 then "Low"
  else if t ≤ 4 then "Moderate"
  else if t ≤ 5 then "High"
  else "Very High"

/-- Spec §4.1's classifier: bucket both inputs, sum, map to a tier. -/
def spec_classify (elev rain : ℚ) : String :=
  spec_tier (spec_elev_bucket elev + spec_rain_bucket rain)

lemma seb_eq_zero {x : ℚ} (h : 20 ≤ x) : spec_elev_bucket x = 0 := by
  unfold spec_elev_bucket
  rw [if_pos h]

lemma seb_eq_one {x : ℚ} (h1 : 10 ≤ x) (h2 : x < 20) : spec_elev_bucket x = 1 := by
  unfold spec_elev_bucket
  rw [if_neg (not_le.mpr h2), if_pos ⟨h1, h2⟩]

lemma seb_eq_two {x : ℚ} (h1 : 5 ≤ x) (h2 : x < 10) : spec_elev_bucket x = 2 := by
  unfold spec_elev_bucket
  rw [if_neg (by rintro hc; linarith), if_neg (by rintro ⟨hc, _⟩; linarith),
    if_pos ⟨h1, h2⟩]

lemma seb_eq_three {x : ℚ} (h : x < 5) : spec_elev_bucket x = 3 := by
  unfold spec_elev_bucket
  rw [if_neg (by rintro hc; linarith), if_neg (by rintro ⟨hc, _⟩; linarith),
    if_neg (by rintro ⟨hc, _⟩; linarith)]

lemma seb_le_three (x : ℚ) : spec_elev_bucket x ≤ 3 := by
  unfold spec_elev_bucket
  split_ifs <;> omega

lemma srb_eq_zero {x : ℚ} (h : x ≤ 50) : spec_rain_bucket x = 0 := by
  unfold spec_rain_bucket
  rw [if_pos h]

lemma srb_eq_one {x : ℚ} (h1 : 50 < x) (h2 : x ≤ 90) : spec_rain_bucket x = 1 := by
  unfold spec_rain_bucket
  rw [if_neg (not_le.mpr h1), if_pos ⟨h1, h2⟩]

lemma srb_eq_two {x : ℚ} (h1 : 90 < x) (h2 : x ≤ 120) : spec_rain_bucket x = 2 := by
  unfold spec_rain_bucket
  rw [if_neg (by rintro hc; linarith), if_neg (by rintro ⟨_, hc⟩; linarith),
    if_pos ⟨h1, h2⟩]

lemma srb_eq_three {x : ℚ} (h : 120 < x) : spec_rain_bucket x = 3 := by
  unfold spec_rain_bucket
  rw [if_neg (by rintro hc; linarith), if_neg (by rintro ⟨_, hc⟩; linarith),
    if_neg (by rintro ⟨_, hc⟩; linarith)]

lemma srb_le_three (x : ℚ) : spec_rain_bucket x ≤ 3 := by
  unfold spec_rain_bucket
  split_ifs <;> omega

lemma elev_bucket_agree (elev : ℚ) :
    (if elev ≥ 20 then (0 : ℕ) else if elev ≥ 10 then 1
      else if elev ≥ 5 then 2 else 3) = spec_elev_bucket elev := by
  rcases le_or_lt 20 elev with h1 | h1
  · rw [if_pos h1, seb_eq_zero h1]
  · rw [if_neg (not_le.mpr h1)]
    rcases le_or_lt 10 elev with h2 | h2
    · rw [if_pos h2, seb_eq_one h2 h1]
    · rw [if_neg (not_le.mpr h2)]
      rcases le_or_lt 5 elev with h3 | h3
      · rw [if_pos h3, seb_eq_two h3 h2]
      · rw [if_neg (not_le.mpr h3), seb_eq_three h3]

lemma rain_bucket_agree (rain : ℚ) :
    (if rain ≤ 50 then (0 : ℕ) else if rain ≤ 90 then 1
      else if rain ≤ 120 then 2 else 3) = spec_rain_bucket rain := by
  rcases le_or_lt rain 50 with h1 | h1
  · rw [if_pos h1, srb_eq_zero h1]
  · rw [if_neg (not_le.mpr h1)]
    rcases le_or_lt rain 90 with h2 | h2
    · rw [if_pos h2, srb_eq_one h1 h2]
    · rw [if_neg (not_le.mpr h2)]
      rcases le_or_lt rain 120 with h3 | h3
      · rw [if_pos h3, srb_eq_two h2 h3]
      · rw [if_neg (not_le.mpr h3), srb_eq_three h3]

lemma calc_risk_of_buckets (elev rain : ℚ) (e r : ℕ)
    (he : (if elev ≥ 20 then (0 : ℕ) else if elev ≥ 10 then 1
      else if elev ≥ 5 then 2 else 3) = e)
    (hr : (if rain ≤ 50 then (0 : ℕ) else if rain ≤ 90 then 1
      else if rain ≤ 120 then 2 else 3) = r) :
    calc_risk elev rain = spec_tier (e + r) := by
  simp only [calc_risk, spec_tier]
  rw [he, hr]

lemma calc_risk_eq_spec (elev rain : ℚ) :
    calc_risk elev rain = spec_classify elev rain :=
  calc_risk_of_buckets elev rain _ _ (elev_bucket_agree elev) (rain_bucket_agree rain)

lemma spec_elev_bucket_antitone {a b : ℚ} (h : a ≤ b) :
    spec_elev_bucket b ≤ spec_elev_bucket a := by
  rcases le_or_lt 20 a with h1 | h1
  · rw [seb_eq_zero (h1.trans h), seb_eq_zero h1]
  · rcases le_or_lt 10 a with h2 | h2
    · rw [seb_eq_one h2 h1]
      rcases le_or_lt 20 b with g1 | g1
      · rw [seb_eq_zero g1]; omega
      · rw [seb_eq_one (h2.trans h) g1]
    · rcases le_or_lt 5 a with h3 | h3
      · rw [seb_eq_two h3 h2]
        rcases le_or_lt 20 b with g1 | g1
        · rw [seb_eq_zero g1]; omega
        · rcases le_or_lt 10 b with g2 | g2
          · rw [seb_eq_one g2 g1]; omega
          · rw [seb_eq_two (h3.trans h) g2]
      · rw [seb_eq_three h3]
        exact seb_le_three b

lemma spec_rain_bucket_mono {a b : ℚ} (h : a ≤ b) :
    spec_rain_bucket a ≤ spec_rain_bucket b := by
  rcases le_or_lt a 50 with h1 | h1
  · rw [srb_eq_zero h1]; exact Nat.zero_le _
  · rcases le_or_lt a 90 with h2 | h2
    · rw [srb_eq_one h1 h2]
      rcases le_or_lt b 90 with g1 | g1
      · rw [srb_eq_one (h1.trans_le h) g1]
      · rcases le_or_lt b 120 with g2 | g2
        · rw [srb_eq_two g1 g2]; omega
        · rw [srb_eq_three g2]; omega
    · rcases le_or_lt a 120 with h3 | h3
      · rw [srb_eq_two h2 h3]
        rcases le_or_lt b 120 with g1 | g1
        · rw [srb_eq_two (h2.trans_le h) g1]
        · rw [srb_eq_three g1]; omega
      · rw [srb_eq_three h3, srb_eq_three (h3.trans_le h)]

lemma spec_tier_rank_mono {s t : ℕ} (h : s ≤ t) :
    tier_rank (spec_tier s) ≤ tier_rank (spec_tier t) := by
  unfold spec_tier
  split_ifs <;> simp [tier_rank] <;> omega

lemma bump_risk_tierName (t : RiskTier) :
    bump_risk (tierName t) = tierName (bumpOnce t) := by
  cases t <;> decide

lemma tier_rank_bumpOnce (t : RiskTier) :
    tier_rank (tierName t) ≤ tier_rank (tierName (bumpOnce t)) := by
  cases t <;> decide

lemma fuse_count (level : String) (alerts : List AlertRecord) :
    (fuse level alerts).matchedCount
      = (alerts.filter (fun f => floodish f.eventName)).length := by
  simp only [fuse]
  split
  · rfl
  · split <;> rfl

lemma hasSubList_iff (n h : List Char) :
    hasSubList n h = true ↔ ∃ l r, h = l ++ (n ++ r) := by
  induction h with
  | nil =>
    simp only [hasSubList, List.isEmpty_iff]
    constructor
    · rintro rfl
      exact ⟨[], [], rfl⟩
    · rintro ⟨l, r, hlr⟩
      rcases List.append_eq_nil.mp hlr.symm with ⟨rfl, h2⟩
      rcases List.append_eq_nil.mp h2 with ⟨rfl, rfl⟩
      rfl
  | cons c t ih =>
    simp only [hasSubList, Bool.or_eq_true, ih, List.isPrefixOf_iff_prefix]
    constructor
    · rintro (⟨r, hr⟩ | ⟨l, r, hlr⟩)
      · exact ⟨[], r, hr.symm⟩
      · exact ⟨c :: l, r, by rw [hlr]; rfl⟩
    · rintro ⟨l, r, hlr⟩
      cases l with
      | nil =>
        left
        exact ⟨r, hlr.symm⟩
      | cons x l2 =>
        right
        rcases List.cons_eq_cons.mp hlr with ⟨rfl, h2⟩
        exact ⟨l2, r, h2⟩

lemma floodish_iff (ev : Option String) :
    floodish ev = true ↔
      ∃ k ∈ (["flood", "flash", "coastal", "surge"] : List String),
        ∃ l r, (pyLower (ev.getD "")).data = l ++ (k.data ++ r) := by
  simp only [floodish, List.any_eq_true, hasSubList_iff]

/-- C3: for every elevation and rain input, `calc_risk` returns exactly the
tier given by the spec's bucket cascade: elevation bucket 0/1/2/3 at the 20,
10, 5 metre boundaries, rain bucket 0/1/2/3 at the 50, 90, 120 mm
boundaries, and the sum `t = e + r` mapped through the spec's tier table. -/
theorem classify_matches_spec_buckets (elev rain : ℚ) :
    calc_risk elev rain = spec_classify elev rain :=
  calc_risk_eq_spec elev rain

/-- C7: holding rain fixed, `calc_risk` is monotonically non-increasing in
elevation, and holding elevation fixed it is monotonically non-decreasing in
rain, with respect to the tier ordering. -/
theorem classify_monotone (a b elev rain : ℚ) (hab : a ≤ b) :
    tier_rank (calc_risk b rain) ≤ tier_rank (calc_risk a rain) ∧
    tier_rank (calc_risk elev a) ≤ tier_rank (calc_risk elev b) := by
  constructor
  · simp only [calc_risk_eq_spec, spec_classify]
    exact spec_tier_rank_mono (Nat.add_le_add (spec_elev_bucket_antitone hab) le_rfl)
  · simp only [calc_risk_eq_spec, spec_classify]
    exact spec_tier_rank_mono (Nat.add_le_add le_rfl (spec_rain_bucket_mono hab))

/-- Witness for C7 at elevation pair 3 ≤ 12 with rain 60, and rain pair
3 ≤ 12 with elevation 7. -/
theorem classify_monotone_witness :
    (3 : ℚ) ≤ 12 ∧
    (tier_rank (calc_risk 12 60) ≤ tier_rank (calc_risk 3 60) ∧
     tier_rank (calc_risk 7 3) ≤ tier_rank (calc_risk 7 12)) :=
  ⟨by decide, classify_monotone 3 12 7 60 (by decide)⟩

/-- C4: fusing the empty alert list leaves every tier unchanged, with no
bump applied and a matched count of zero. -/
theorem fuse_empty_alerts (t : RiskTier) :
    fuse (tierName t) [] = ⟨tierName t, false, 0⟩ := rfl

/-- C1 as stated is false: a severe flood-relevant alert lowers a VeryHigh
base tier to High. -/
theorem fuse_lowers_very_high :
    tier_rank ((fuse (tierName RiskTier.veryHigh)
      [⟨some "Flood Warning", some "Severe"⟩]).finalTier)
      < tier_rank (tierName RiskTier.veryHigh) := by decide

lemma fuse_severe_aux (level : String) (alerts : List AlertRecord)
    (h : ∃ f ∈ alerts.filter (fun f => floodish f.eventName),
        pyLower (f.severity.getD "") = "severe" ∨
        pyLower (f.severity.getD "") = "extreme") :
    (fuse level alerts).finalTier = "High" ∧
    (fuse level alerts).bumpApplied = true := by
  obtain ⟨f, hf, hs⟩ := h
  have hne : (alerts.filter (fun f => floodish f.eventName)).isEmpty = false :=
    List.isEmpty_eq_false_iff_exists_mem.mpr ⟨f, hf⟩
  have hany : ((alerts.filter (fun f => floodish f.eventName)).map
      (fun f => pyLower (f.severity.getD ""))).any
      (fun s => s == "severe" || s == "extreme") = true := by
    refine List.any_eq_true.mpr
      ⟨pyLower (f.severity.getD ""), List.mem_map_of_mem _ hf, ?_⟩
    rcases hs with hs | hs <;> simp [hs]
  constructor <;> simp [fuse, hne, hany]

/-- C1 amended: fusing alerts never lowers the tier below its pre-fusion
value, except when the base tier is VeryHigh and some flood-relevant alert
has severity `severe` or `extreme`: in that case, and only in that case, the
tier may drop, and the result is then exactly High. -/
theorem fuse_never_lowers_except_override (base : RiskTier)
    (alerts : List AlertRecord) :
    (base = RiskTier.veryHigh ∧
      (∃ f ∈ alerts.filter (fun f => floodish f.eventName),
        pyLower (f.severity.getD "") = "severe" ∨
        pyLower (f.severity.getD "") = "extreme") →
      (fuse (tierName base) alerts).finalTier = "High") ∧
    (¬(base = RiskTier.veryHigh ∧
      (∃ f ∈ alerts.filter (fun f => floodish f.eventName),
        pyLower (f.severity.getD "") = "severe" ∨
        pyLower (f.severity.getD "") = "extreme")) →
      tier_rank (tierName base) ≤
        tier_rank ((fuse (tierName base) alerts).finalTier)) := by
  constructor
  · rintro ⟨rfl, hsev⟩
    exact (fuse_severe_aux (tierName RiskTier.veryHigh) alerts hsev).1
  · intro hnot
    simp only [fuse]
    split
    · exact le_rfl
    · split
      · rename_i hany
        obtain ⟨s, hsmem, hp⟩ := List.any_eq_true.mp hany
        obtain ⟨f, hf, rfl⟩ := List.mem_map.mp hsmem
        have hsev : pyLower (f.severity.getD "") = "severe" ∨
            pyLower (f.severity.getD "") = "extreme" := by simpa using hp
        cases base with
        | veryHigh => exact absurd ⟨rfl, f, hf, hsev⟩ hnot
        | veryLow =>
          show tier_rank (tierName RiskTier.veryLow) ≤ tier_rank "High"
          decide
        | low =>
          show tier_rank (tierName RiskTier.low) ≤ tier_rank "High"
          decide
        | moderate =>
          show tier_rank (tierName RiskTier.moderate) ≤ tier_rank "High"
          decide
        | high =>
          show tier_rank (tierName RiskTier.high) ≤ tier_rank "High"
          decide
      · show tier_rank (tierName base) ≤ tier_rank (bump_risk (tierName base))
        cases base <;> decide

/-- Witness for C1 amended: the override clause at a severe flood alert over
a VeryHigh base, and the no-lowering clause at a minor flood alert over a
Low base. -/
theorem fuse_never_lowers_except_override_witness :
    (fuse (tierName RiskTier.veryHigh)
      [⟨some "Flood Warning", some "Severe"⟩]).finalTier = "High" ∧
    tier_rank (tierName RiskTier.low) ≤
      tier_rank ((fuse (tierName RiskTier.low)
        [⟨some "Flood Warning", some "Minor"⟩]).finalTier) :=
  ⟨(fuse_never_lowers_except_override RiskTier.veryHigh
      [⟨some "Flood Warning", some "Severe"⟩]).1 ⟨rfl, by decide⟩,
   (fuse_never_lowers_except_override RiskTier.low
      [⟨some "Flood Warning", some "Minor"⟩]).2 (by decide)⟩

/-- C2: whenever some flood-relevant alert has severity `severe` or
`extreme` (case-insensitive), the fuser forces the final level to High —
for every base tier, including VeryHigh — and reports the bump applied. -/
theorem fuse_severe_forces_high (base : RiskTier) (alerts : List AlertRecord)
    (h : ∃ f ∈ alerts.filter (fun f => floodish f.eventName),
        pyLower (f.severity.getD "") = "severe" ∨
        pyLower (f.severity.getD "") = "extreme") :
    (fuse (tierName base) alerts).finalTier = "High" ∧
    (fuse (tierName base) alerts).bumpApplied = true :=
  fuse_severe_aux (tierName base) alerts h

/-- Witness for C2: a severe coastal-flood alert over a VeryLow base. -/
theorem fuse_severe_forces_high_witness :
    (fuse (tierName RiskTier.veryLow)
      [⟨some "Coastal Flood Advisory", some "Severe"⟩]).finalTier = "High" ∧
    (fuse (tierName RiskTier.veryLow)
      [⟨some "Coastal Flood Advisory", some "Severe"⟩]).bumpApplied = true :=
  fuse_severe_forces_high RiskTier.veryLow
    [⟨some "Coastal Flood Advisory", some "Severe"⟩] (by decide)

/-- C5: when flood-relevant alerts exist but none is severe or extreme, the
fuser promotes the base tier exactly one step (clamped at VeryHigh), so the
result is never strictly below the base tier. -/
theorem fuse_plain_bump (base : RiskTier) (alerts : List AlertRecord)
    (hne : alerts.filter (fun f => floodish f.eventName) ≠ [])
    (hs : ∀ f ∈ alerts.filter (fun f => floodish f.eventName),
        pyLower (f.severity.getD "") ≠ "severe" ∧
        pyLower (f.severity.getD "") ≠ "extreme") :
    (fuse (tierName base) alerts).finalTier = tierName (bumpOnce base) ∧
    tier_rank (tierName base) ≤
      tier_rank ((fuse (tierName base) alerts).finalTier) := by
  have hne' : (alerts.filter (fun f => floodish f.eventName)).isEmpty = false := by
    simp [List.isEmpty_iff, hne]
  have hany : ((alerts.filter (fun f => floodish f.eventName)).map
      (fun f => pyLower (f.severity.getD ""))).any
      (fun s => s == "severe" || s == "extreme") = false := by
    refine List.any_eq_false.mpr ?_
    intro s hsmem
    rcases List.mem_map.mp hsmem with ⟨f, hf, rfl⟩
    have hrec := hs f hf
    simp [hrec.1, hrec.2]
  refine ⟨?_, ?_⟩
  · simp [fuse, hne', hany, bump_risk_tierName]
  · simp only [fuse, hne', hany]
    simp [bump_risk_tierName]
    exact tier_rank_bumpOnce base

/-- Witness for C5: one moderate flash-flood alert over a VeryLow base. -/
theorem fuse_plain_bump_witness :
    (fuse (tierName RiskTier.veryLow)
      [⟨some "Flash Flood Warning", some "Moderate"⟩]).finalTier
      = tierName (bumpOnce RiskTier.veryLow) ∧
    tier_rank (tierName RiskTier.veryLow) ≤
      tier_rank ((fuse (tierName RiskTier.veryLow)
        [⟨some "Flash Flood Warning", some "Moderate"⟩]).finalTier) :=
  fuse_plain_bump RiskTier.veryLow
    [⟨some "Flash Flood Warning", some "Moderate"⟩] (by decide) (by decide)

/-- C6 as stated is false: the code's High-tier tips read `w/` and `&`
where the spec's quoted strings read `with` and `and`. -/
theorem tips_for_high_ne_spec_strings :
    tips_for (tierName RiskTier.high) ≠
      ["Install a sump pump with backup power.",
       "Seal foundation cracks and window wells.",
       "Redirect downspouts 3–6 ft from foundation."] := by decide

/-- C6 amended: for every tier, `tips_for` returns exactly the three fixed
strings of its group as written in the source (`w/ backup power`,
`cracks & window wells` for the High group), three non-empty strings per
tier. -/
theorem tips_for_table (t : RiskTier) :
    (tips_for (tierName t) =
      if t = RiskTier.high ∨ t = RiskTier.veryHigh then
        ["Install a sump pump w/ backup power.",
         "Seal foundation cracks & window wells.",
         "Redirect downspouts 3–6 ft from foundation."]
      else if t = RiskTier.moderate then
        ["Consider a French drain.",
         "Regrade soil to slope away from the house.",
         "Use native plants for absorption."]
      else
        ["Maintain gutters/downspouts.",
         "Keep a basic emergency kit.",
         "Sign up for local weather alerts."]) ∧
    (tips_for (tierName t)).length = 3 ∧
    ∀ s ∈ tips_for (tierName t), s ≠ "" := by
  cases t <;> exact ⟨by decide, by decide, by decide⟩

/-- C8: the fuser's matched count is exactly the number of alerts whose
event name is flood-relevant, and flood-relevance holds exactly when the
lower-cased event name contains one of the four keywords as a contiguous
substring. -/
theorem fuse_matched_count (level : String) (alerts : List AlertRecord) :
    (fuse level alerts).matchedCount
      = (alerts.filter (fun f => floodish f.eventName)).length ∧
    ∀ f : AlertRecord, floodish f.eventName = true ↔
      ∃ k ∈ (["flood", "flash", "coastal", "surge"] : List String),
        ∃ l r, (pyLower (f.eventName.getD "")).data = l ++ (k.data ++ r) :=
  ⟨fuse_count level alerts, fun f => floodish_iff f.eventName⟩

/-- C9: `bump_risk` on any string that is not one of the five tier names
treats it as the minimum tier and returns `Low` (and, being a total Lean
function, never fails). -/
theorem bump_risk_unknown_level (s : String)
    (h : s ∉ (["Very Low", "Low", "Moderate", "High", "Very High"] : List String)) :
    bump_risk s = "Low" := by
  have hidx : (["Very Low", "Low", "Moderate", "High", "Very High"] :
      List String).indexOf? s = none := by
    rw [List.indexOf?_eq_none_iff]
    intro x hx hcon
    exact h ((show x = s by simpa using hcon) ▸ hx)
  simp only [bump_risk]
  rw [hidx]
  rfl

/-- Witness for C9 at the non-tier string `Flood Watch`. -/
theorem bump_risk_unknown_level_witness :
    "Flood Watch" ∉ (["Very Low", "Low", "Moderate", "High", "Very High"] :
      List String) ∧ bump_risk "Flood Watch" = "Low" :=
  ⟨by decide, bump_risk_unknown_level "Flood Watch" (by decide)⟩

/-- C10: `tips_for` is total over strings: any input other than `High`,
`Very High` and `Moderate` — including non-tier strings — falls through to
the low-risk tip list. -/
theorem tips_for_default (s : String) (h1 : s ≠ "High") (h2 : s ≠ "Very High")
    (h3 : s ≠ "Moderate") :
    tips_for s = ["Maintain gutters/downspouts.",
      "Keep a basic emergency kit.", "Sign up for local weather alerts."] := by
  simp [tips_for, h1, h2, h3]

/-- Witness for C10 at the non-tier string `Banana`. -/
theorem tips_for_default_witness :
    tips_for "Banana" = ["Maintain gutters/downspouts.",
      "Keep a basic emergency kit.", "Sign up for local weather alerts."] :=
  tips_for_default "Banana" (by decide) (by decide) (by decide)

end AquaAlert
